import Mathlib

/-!
Shallow embedding of the `accounts` Moleculer service
(src/services/users.service.js) of eCameleonMoleculerAuth.

External collaborators (bcrypt, jsonwebtoken, speakeasy, crypto, the Mongo
adapter) are idealized: bcrypt hashing is an injective constructor, JWTs are
records carrying payload and expiry, TOTP codes are a deterministic function
of the secret, and the adapter is a list of account documents.  Randomly
generated values (opaque tokens, TOTP secrets, bcrypt salts) are supplied as
explicit nonce parameters.  JavaScript truthiness of optional string
parameters (undefined / empty string are falsy) is modelled by isTruthy, and
the JavaScript comparison `undefined < n = false` for absent expiry fields by
expiresBefore.
-/

/-- A value stored in the `password` field: either a bcrypt hash of a
plaintext (bcrypt.hash(plain, 10)) or an opaque random token produced by
generateToken() for passwordless accounts. -/
inductive PasswordVal where
  | hash (plain : String)
  | token (nonce : Nat)
deriving DecidableEq, Repr

/-- The embedded `totp` sub-document: { enabled, secret }. -/
structure TotpInfo where
  enabled : Bool := false
  secret : Option String := none
deriving DecidableEq, Repr

/-- An account document, following the fields used by the service
(settings.fields, lines 90-112, and the handlers). -/
structure Account where
  _id : Nat := 0
  username : Option String := none
  email : String := ""
  firstName : String := ""
  lastName : String := ""
  password : Option PasswordVal := none
  avatar : String := ""
  roles : List String := []
  status : Nat := 1
  plan : String := ""
  verified : Bool := false
  passwordless : Bool := false
  verificationToken : Option String := none
  passwordlessToken : Option String := none
  passwordlessTokenExpires : Option Nat := none
  resetToken : Option String := none
  resetTokenExpires : Option Nat := none
  totp : Option TotpInfo := none
  socialLinks : List (String × String) := []
  createdAt : Nat := 0
deriving DecidableEq, Repr

/-- The configuration snapshot consumed by the service
(this.config keys and the env-provided TTLs). -/
structure Config where
  signupEnabled : Bool := true
  usernameEnabled : Bool := false
  passwordlessEnabled : Bool := false
  verificationEnabled : Bool := false
  mailEnabled : Bool := true
  defaultRoles : List String := ["user"]
  defaultPlan : String := "free"
  jwtExpiresIn : Nat := 3600
  resetTokenTTL : Nat := 3600
  passwordlessTokenTTL : Nat := 3600
  siteName : String := "site"
deriving Repr

/-- Error codes thrown by the service (MoleculerClientError codes), plus
typeError for a JavaScript runtime TypeError (unguarded property access)
and entityNotFound for the needEntity mixin guard. -/
inductive Err where
  | invalidToken
  | userNotFound
  | entityNotFound
  | accountNotVerified
  | userDisabled
  | signupDisabled
  | emailExists
  | usernameEmpty
  | usernameExists
  | passwordEmpty
  | accountDisabled
  | tokenExpired
  | emailNotFound
  | passwordlessDisabled
  | passwordlessWithPassword
  | passwordlessUnavailable
  | wrongPassword
  | missing2FaCode
  | twofactorInvalidToken
  | twofactorNotEnabled
  | userAlreadyDisabled
  | userAlreadyEnabled
  | socialAccountMismatch
  | noSocialEmail
  | typeError
deriving DecidableEq, Repr

/-- JavaScript truthiness of an optional string parameter:
undefined and the empty string are falsy. -/
def isTruthy : Option String → Bool
  | none => false
  | some s => s != ""

/-- The JavaScript comparison `expires < now` on a field that may be
absent: `undefined < n` is false. -/
def expiresBefore : Option Nat → Nat → Bool
  | some e, now => e < now
  | none, _ => false

/-- bcrypt.hash(plain, 10), idealized as an injective constructor
(the random salt is dropped). -/
def bcryptHash (plain : String) : PasswordVal := .hash plain

/-- bcrypt.compare(plain, stored): true exactly when the stored value is a
bcrypt hash of plain; an opaque passwordless placeholder is not a valid
bcrypt hash, so comparison against it is always false.  Every account
created by this service carries a password value, so the absent case is
not reached by the modelled flows. -/
def bcryptCompare (plain : String) : Option PasswordVal → Bool
  | some (.hash q) => plain == q
  | some (.token _) => false
  | none => false

/-- The deterministic TOTP code for a secret (speakeasy idealized: the code
verifying against a secret is a function of that secret). -/
def totpCode (secret : String) : String := "totp:" ++ secret

/-- this.verify2FA(secret, token) (speakeasy.totp.verify): true exactly when
a code is supplied and matches the secret's current code; absent secret or
absent code verify as false. -/
def verify2FA : Option String → Option String → Bool
  | some s, some c => c == totpCode s
  | _, _ => false

/-- The signed session token (JWT idealized: payload id, issue time, expiry;
tampering is outside the model). -/
structure SessionToken where
  id : Nat
  iat : Nat
  exp : Nat
deriving DecidableEq, Repr

/-- generateJWT: sign the account id with expiry now + ttl. -/
def generateJWT (id : Nat) (now ttl : Nat) : SessionToken :=
  { id := id, iat := now, exp := now + ttl }

/-- verifyJWT: jsonwebtoken treats a token as expired once the current time
reaches exp, and the service maps every verification failure to
INVALID_TOKEN. -/
def verifyJWT (t : SessionToken) (now : Nat) : Except Err Nat :=
  if t.exp ≤ now then .error .invalidToken else .ok t.id

/-- The account store (Mongo adapter idealized as a list of documents). -/
abbrev DB := List Account

/-- adapter.findOne(query): first matching document. -/
def findOne (db : DB) (p : Account → Bool) : Option Account := db.find? p

/-- adapter.findById(id). -/
def findById (db : DB) (i : Nat) : Option Account :=
  db.find? (fun a => a._id == i)

/-- adapter.updateById(id, { $set / $unset ... }): apply the patch to the
matching document. -/
def updateById (db : DB) (i : Nat) (patch : Account → Account) : DB :=
  db.map (fun a => if a._id == i then patch a else a)

/-- An id not used yet, for adapter.insert. -/
def freshId (db : DB) : Nat := db.foldl (fun m a => max m (a._id + 1)) 0

/-- getToken(user) = generateJWT({ id: user._id }) with the configured
session TTL. -/
def getToken (u : Account) (now : Nat) (cfg : Config) : SessionToken :=
  generateJWT u._id now cfg.jwtExpiresIn

/-- user.totp && user.totp.enabled. -/
def totpActive (u : Account) : Bool :=
  match u.totp with
  | some t => t.enabled
  | none => false

/-- user.totp.secret read after user.totp is known to exist. -/
def totpSecret (u : Account) : Option String :=
  match u.totp with
  | some t => t.secret
  | none => none

/-- The gravatar URL derived from the email (md5 idealized injectively). -/
def gravatarOf (email : String) : String :=
  "https://gravatar.com/avatar/" ++ email ++ "?s=64&d=retro"

/-- The otpauth enrollment URI built by speakeasy.otpauthURL. -/
def otpauthOf (secret email site : String) : String :=
  "otpauth://totp/" ++ email ++ "?secret=" ++ secret ++ "&issuer=" ++ site

/-- The sanitized view produced by transformDocuments under settings.fields:
only listed, non-hidden fields survive.  password, verificationToken,
passwordlessToken(Expires), resetToken(Expires) and totp.secret are
stripped; token and totp.enabled are exposed. -/
structure PublicUser where
  id : Nat
  username : Option String
  email : String
  firstName : String
  lastName : String
  avatar : String
  roles : List String
  status : Nat
  plan : String
  verified : Bool
  passwordless : Bool
  totpEnabled : Bool
  token : Option SessionToken
deriving DecidableEq, Repr

/-- transformDocuments(ctx, {}, user): project the document onto the
exposed fields. -/
def transformDocuments (u : Account) (tok : Option SessionToken) : PublicUser :=
  { id := u._id, username := u.username, email := u.email,
    firstName := u.firstName, lastName := u.lastName, avatar := u.avatar,
    roles := u.roles, status := u.status, plan := u.plan,
    verified := u.verified, passwordless := u.passwordless,
    totpEnabled := totpActive u, token := tok }

/-- Parameters of the register action. -/
structure RegisterParams where
  username : Option String := none
  password : Option String := none
  email : String := ""
  firstName : String := ""
  lastName : String := ""
  avatar : Option String := none
deriving DecidableEq, Repr

/-- The entity assembled by register (lines 227-260) once all validations
have passed: defaults from configuration, gravatar fallback, password hash
or passwordless placeholder, verification token when that feature is on. -/
def registerEntity (cfg : Config) (db : DB) (p : RegisterParams)
    (now pwNonce : Nat) (verifNonce : String) : Account :=
  { _id := freshId db,
    username := if cfg.usernameEnabled then p.username else none,
    email := p.email, firstName := p.firstName, lastName := p.lastName,
    password := some (if isTruthy p.password then bcryptHash (p.password.getD "")
                      else PasswordVal.token pwNonce),
    passwordless := !(isTruthy p.password),
    avatar := if isTruthy p.avatar then p.avatar.getD "" else gravatarOf p.email,
    roles := cfg.defaultRoles, plan := cfg.defaultPlan, socialLinks := [],
    createdAt := now, status := 1,
    verified := !cfg.verificationEnabled,
    verificationToken := if cfg.verificationEnabled then some verifNonce else none }

/-- actions.register (lines 191-277). -/
def registerHandler (cfg : Config) (db : DB) (p : RegisterParams)
    (now pwNonce : Nat) (verifNonce : String) :
    Except Err (DB × PublicUser) :=
  if !cfg.signupEnabled then .error .signupDisabled
  else if (findOne db (fun u => u.email == p.email)).isSome then .error .emailExists
  else if cfg.usernameEnabled && !(isTruthy p.username) then .error .usernameEmpty
  else if cfg.usernameEnabled &&
      (findOne db (fun u => u.username == p.username)).isSome then .error .usernameExists
  else if !(isTruthy p.password) && !cfg.passwordlessEnabled then .error .passwordEmpty
  else
    let e := registerEntity cfg db p now pwNonce verifNonce
    let tok : Option SessionToken :=
      if e.verified then some (getToken e now cfg) else none
    .ok (db ++ [e], transformDocuments e tok)

/-- The update applied by actions.verify on success. -/
def verifyPatch (u : Account) : Account :=
  { u with verified := true, verificationToken := none }

/-- actions.verify (lines 282-305). -/
def verifyHandler (cfg : Config) (db : DB) (tok : String) (now : Nat) :
    Except Err (DB × SessionToken) :=
  match findOne db (fun u => u.verificationToken == some tok) with
  | none => .error .invalidToken
  | some user =>
    .ok (updateById db user._id verifyPatch, getToken user now cfg)

/-- actions.disable (lines 310-328). -/
def disableHandler (db : DB) (id : Nat) : Except Err (DB × Nat) :=
  match findById db id with
  | none => .error .entityNotFound
  | some user =>
    if user.status == 0 then .error .userAlreadyDisabled
    else .ok (updateById db id (fun u => { u with status := 0 }), 0)

/-- actions.enable (lines 333-351). -/
def enableHandler (db : DB) (id : Nat) : Except Err (DB × Nat) :=
  match findById db id with
  | none => .error .entityNotFound
  | some user =>
    if user.status == 1 then .error .userAlreadyEnabled
    else .ok (updateById db id (fun u => { u with status := 1 }), 1)

/-- The update applied by actions.passwordless to an unverified account. -/
def verifiedPatch (u : Account) : Account := { u with verified := true }

/-- actions.passwordless (lines 356-388): consume a magic-link token.
Note: the handler never clears passwordlessToken. -/
def passwordlessHandler (cfg : Config) (db : DB) (tok : String) (now : Nat) :
    Except Err (DB × SessionToken) :=
  if !cfg.passwordlessEnabled then .error .passwordlessDisabled
  else
    match findOne db (fun u => u.passwordlessToken == some tok) with
    | none => .error .invalidToken
    | some user =>
      if user.status != 1 then .error .accountDisabled
      else if expiresBefore user.passwordlessTokenExpires now then .error .tokenExpired
      else
        let db' := if !user.verified then updateById db user._id verifiedPatch else db
        .ok (db', getToken user now cfg)

/-- The update applied by forgotpassword on success. -/
def forgotPatch (fresh : String) (expires : Nat) (u : Account) : Account :=
  { u with resetToken := some fresh, resetTokenExpires := some expires }

/-- actions.forgotpassword (lines 393-425). -/
def forgotpasswordHandler (cfg : Config) (db : DB) (email : String)
    (now : Nat) (fresh : String) : Except Err DB :=
  match findOne db (fun u => u.email == email) with
  | none => .error .emailNotFound
  | some user =>
    if !user.verified then .error .accountNotVerified
    else if user.status != 1 then .error .accountDisabled
    else .ok (updateById db user._id (forgotPatch fresh (now + cfg.resetTokenTTL)))

/-- The update applied by resetpassword on success: new hash,
passwordless=false, verified=true, reset token and expiry cleared, all in
one adapter.updateById call. -/
def resetPatch (pass : String) (u : Account) : Account :=
  { u with password := some (bcryptHash pass), passwordless := false,
           verified := true, resetToken := none, resetTokenExpires := none }

/-- actions.resetpassword (lines 430-465). -/
def resetpasswordHandler (cfg : Config) (db : DB) (tok pass : String)
    (now : Nat) : Except Err (DB × SessionToken) :=
  match findOne db (fun u => u.resetToken == some tok) with
  | none => .error .invalidToken
  | some user =>
    if user.status != 1 then .error .accountDisabled
    else if expiresBefore user.resetTokenExpires now then .error .tokenExpired
    else
      .ok (updateById db user._id (resetPatch pass), getToken user now cfg)

/-- The update applied by sendMagicLink (lines 778-787). -/
def magicPatch (fresh : String) (expires : Nat) (u : Account) : Account :=
  { u with passwordlessToken := some fresh,
           passwordlessTokenExpires := some expires }

/-- sendMagicLink: store a fresh passwordless token with its expiry. -/
def sendMagicLink (cfg : Config) (db : DB) (user : Account) (now : Nat)
    (fresh : String) : DB :=
  updateById db user._id (magicPatch fresh (now + cfg.passwordlessTokenTTL))

/-- The outcome of a successful login: a session token, or the
{ passwordless: true, email } pending indicator. -/
inductive LoginOutcome where
  | session (t : SessionToken)
  | pendingPasswordless (email : String)
deriving DecidableEq, Repr

/-- The account lookup of login: by email, or by email-or-username when the
username feature is enabled. -/
def loginQuery (cfg : Config) (email : String) (u : Account) : Bool :=
  if cfg.usernameEnabled then u.email == email || u.username == some email
  else u.email == email

/-- actions.login (lines 503-579). -/
def loginHandler (cfg : Config) (db : DB) (email : String)
    (password totpTok : Option String) (now : Nat) (fresh : String) :
    Except Err (DB × LoginOutcome) :=
  match findOne db (loginQuery cfg email) with
  | none => .error .userNotFound
  | some user =>
    if !user.verified then .error .accountNotVerified
    else if user.status != 1 then .error .accountDisabled
    else if user.passwordless && isTruthy password then .error .passwordlessWithPassword
    else if isTruthy password then
      if !(bcryptCompare (password.getD "") user.password) then .error .wrongPassword
      else if totpActive user then
        if !(isTruthy totpTok) then .error .missing2FaCode
        else if !(verify2FA (totpSecret user) totpTok) then .error .twofactorInvalidToken
        else .ok (db, .session (getToken user now cfg))
      else .ok (db, .session (getToken user now cfg))
    else if cfg.passwordlessEnabled then
      if !cfg.mailEnabled then .error .passwordlessUnavailable
      else .ok (sendMagicLink cfg db user now fresh, .pendingPasswordless user.email)
    else .error .passwordlessDisabled

/-- The update of the link method (lines 960-966): set the provider link,
mark verified, clear the verification token. -/
def linkPatch (provider socialID : String) (u : Account) : Account :=
  { u with socialLinks := (provider, socialID) :: u.socialLinks.filter (fun q => q.1 != provider),
           verified := true, verificationToken := none }

/-- this.link(id, provider, profile). -/
def linkMethod (db : DB) (id : Nat) (provider socialID : String) : DB :=
  updateById db id (linkPatch provider socialID)

/-- this.unlink(id, provider): $unset the provider link. -/
def unlinkMethod (db : DB) (id : Nat) (provider : String) : DB :=
  updateById db id (fun u =>
    { u with socialLinks := u.socialLinks.filter (fun q => q.1 != provider) })

/-- A social-provider profile as used by socialLogin. -/
structure SocialProfile where
  socialID : String := ""
  email : String := ""
  username : Option String := none
  firstName : String := ""
  lastName : String := ""
  avatar : Option String := none
deriving DecidableEq, Repr

/-- The local part of an email address, email.split("@")[0]. -/
def emailLocalPart (email : String) : String := (email.splitOn "@").headD ""

/-- bcrypt.genSalt(): a random non-empty salt string, used by socialLogin as
a throwaway password (nonce-indexed). -/
def genSalt (n : Nat) : String := "salt" ++ toString n

/-- The registration branch of actions.socialLogin (lines 649-666): no
existing account matched, so register a new account with a synthesized
username and a throwaway random password, then link the provider. -/
def socialRegisterBranch (cfg : Config) (db : DB) (provider : String)
    (profile : SocialProfile) (now saltNonce pwNonce : Nat)
    (verifNonce : String) : Except Err (DB × PublicUser) :=
  if !cfg.signupEnabled then .error .signupDisabled
  else
    match registerHandler cfg db
        { username := some (if isTruthy profile.username then profile.username.getD ""
                            else emailLocalPart profile.email),
          password := some (genSalt saltNonce),
          email := profile.email, firstName := profile.firstName,
          lastName := profile.lastName, avatar := profile.avatar }
        now pwNonce verifNonce with
    | .error e => .error e
    | .ok (db1, pub) => .ok (linkMethod db1 pub.id provider profile.socialID, pub)

/-- The update storing a pending TOTP secret (enable2Fa, enrollment
branch). -/
def pendingTotpPatch (secret : String) (u : Account) : Account :=
  { u with totp := some { enabled := false, secret := some secret } }

/-- The update of the confirmation branch of enable2Fa:
$set "totp.enabled" = true, keeping the stored secret. -/
def enableTotpPatch (u : Account) : Account :=
  { u with totp := some { enabled := true, secret := totpSecret u } }

/-- The result of enable2Fa: enrollment data, or confirmation. -/
inductive Enable2FaResult where
  | enrollment (secret : String) (otpauthURL : String)
  | enabled
deriving DecidableEq, Repr

/-- actions.enable2Fa (lines 674-716).  In the confirmation branch the code
reads user.totp.secret without guarding that user.totp exists: when the
totp sub-document is absent this is a JavaScript TypeError, modelled as
Err.typeError. -/
def enable2FaHandler (cfg : Config) (db : DB) (userID : Nat)
    (tok : Option String) (freshSecret : String) (userEmail : String) :
    Except Err (DB × Enable2FaResult) :=
  match findById db userID with
  | none => .error .userNotFound
  | some user =>
    if !(isTruthy tok) && !(totpActive user) then
      .ok (updateById db userID (pendingTotpPatch freshSecret),
           .enrollment freshSecret (otpauthOf freshSecret userEmail cfg.siteName))
    else
      match user.totp with
      | none => .error .typeError
      | some t =>
        if !(verify2FA t.secret tok) then .error .twofactorInvalidToken
        else .ok (updateById db userID enableTotpPatch, .enabled)

/-- actions.disable2Fa (lines 721-746). -/
def disable2FaHandler (db : DB) (userID : Nat) (tok : Option String) :
    Except Err DB :=
  match findById db userID with
  | none => .error .userNotFound
  | some user =>
    if !(totpActive user) then .error .twofactorNotEnabled
    else if !(verify2FA (totpSecret user) tok) then .error .twofactorInvalidToken
    else .ok (updateById db userID (fun u =>
      { u with totp := some { enabled := false, secret := none } }))

/-- An AccountLifecycle operation together with its parameters and the
nonces for its randomly generated values. -/
inductive LifecycleOp where
  | registerOp (p : RegisterParams) (pwNonce : Nat) (verifNonce : String)
  | verifyOp (tok : String)
  | disableOp (id : Nat)
  | enableOp (id : Nat)
  | passwordlessOp (tok : String)
  | forgotPasswordOp (email : String) (fresh : String)
  | resetPasswordOp (tok : String) (pass : String)
  | loginOp (email : String) (password totpTok : Option String) (fresh : String)
  | socialRegisterOp (provider : String) (profile : SocialProfile)
      (saltNonce pwNonce : Nat) (verifNonce : String)
  | linkOp (id : Nat) (provider socialID : String)
  | unlinkOp (id : Nat) (provider : String)
  | enable2FaOp (userID : Nat) (tok : Option String) (freshSecret email : String)
  | disable2FaOp (userID : Nat) (tok : Option String)

/-- Run one AccountLifecycle operation on the store, keeping the resulting
store. -/
def applyOp (cfg : Config) (now : Nat) (db : DB) : LifecycleOp → Except Err DB
  | .registerOp p n v => (registerHandler cfg db p now n v).map (fun r => r.1)
  | .verifyOp tok => (verifyHandler cfg db tok now).map (fun r => r.1)
  | .disableOp id => (disableHandler db id).map (fun r => r.1)
  | .enableOp id => (enableHandler db id).map (fun r => r.1)
  | .passwordlessOp tok => (passwordlessHandler cfg db tok now).map (fun r => r.1)
  | .forgotPasswordOp email fresh => forgotpasswordHandler cfg db email now fresh
  | .resetPasswordOp tok pass => (resetpasswordHandler cfg db tok pass now).map (fun r => r.1)
  | .loginOp email pw t fresh => (loginHandler cfg db email pw t now fresh).map (fun r => r.1)
  | .socialRegisterOp prov prof sn pn v =>
      (socialRegisterBranch cfg db prov prof now sn pn v).map (fun r => r.1)
  | .linkOp id prov sid => .ok (linkMethod db id prov sid)
  | .unlinkOp id prov => .ok (unlinkMethod db id prov)
  | .enable2FaOp uid tok s em => (enable2FaHandler cfg db uid tok s em).map (fun r => r.1)
  | .disable2FaOp uid tok => disable2FaHandler db uid tok

/-- The credential-shape invariant actually maintained by the code: a
passwordless account carries an opaque random placeholder in the password
field (never null, never a password hash), and a non-passwordless account
carries a bcrypt password hash. -/
def credOk (a : Account) : Bool :=
  match a.passwordless, a.password with
  | true, some (.token _) => true
  | false, some (.hash _) => true
  | _, _ => false

/-- The configuration of the C1 evaluation: passwordless feature enabled. -/
def c1Cfg : Config := { passwordlessEnabled := true }

/-- A verified enabled account holding an unexpired passwordless token. -/
def c1User : Account :=
  { _id := 1, email := "u@x.com", password := some (.hash "pw12345678"),
    verified := true, status := 1, passwordless := false,
    passwordlessToken := some "magic", passwordlessTokenExpires := some 1000 }

/-- The configuration of the C2 counterexample: signup and passwordless
features enabled, verification disabled. -/
def c2xCfg : Config := { signupEnabled := true, passwordlessEnabled := true }

/-- Registration parameters with no password supplied. -/
def c2xParams : RegisterParams :=
  { email := "a2@x.com", firstName := "Aa", lastName := "Bb" }

/-- The account created by register from c2xParams under c2xCfg. -/
def c2xEntity : Account := registerEntity c2xCfg [] c2xParams 0 7 "v"

/-- The registration operation of the C2 witness. -/
def c2wOp : LifecycleOp := .registerOp c2xParams 7 "v"

/-- The store produced by that registration. -/
def c2wDb : DB := [c2xEntity]

/-- The configuration of the C3 counterexample (all defaults). -/
def c3xCfg : Config := {}

/-- An enabled account with an unexpired reset token and 2FA enabled. -/
def c3xUser : Account :=
  { _id := 2, email := "r@x.com", password := some (.hash "oldpass123"),
    verified := true, status := 1, passwordless := false,
    resetToken := some "rt", resetTokenExpires := some 10000,
    totp := some { enabled := true, secret := some "s" } }

/-- The store after the C3 counterexample's password reset. -/
def c3xDb1 : DB := updateById [c3xUser] 2 (resetPatch "newpass123")

/-- The configuration of the C3 witness (all defaults). -/
def c3wCfg : Config := {}

/-- An enabled, verified account with an unexpired reset token, no 2FA. -/
def c3wUser : Account :=
  { _id := 5, email := "w3@x.com", password := some (.hash "oldpass999"),
    verified := true, status := 1,
    resetToken := some "rt3", resetTokenExpires := some 10000 }

/-- The configuration of the C4 witness (all defaults). -/
def c4wCfg : Config := {}

/-- A verified enabled password account without 2FA. -/
def c4wUser : Account :=
  { _id := 6, email := "w4@x.com", password := some (.hash "pass1234x"),
    verified := true, status := 1 }

/-- The configuration of the C5 witness (all defaults). -/
def c5wCfg : Config := {}

/-- A verified enabled password account without 2FA. -/
def c5wUser : Account :=
  { _id := 7, email := "w5@x.com", password := some (.hash "correct123"),
    verified := true, status := 1 }

/-- The configuration of the C6 witness: verification and passwordless
features disabled (defaults), signup enabled. -/
def c6wCfg : Config := {}

/-- Registration parameters with a password supplied. -/
def c6wP : RegisterParams :=
  { email := "a@x.com", password := some "longenough1",
    firstName := "Aa", lastName := "Bb" }

/-- The configuration of the C7 counterexample: passwordless feature enabled
but the mail transporter disabled. -/
def c7xCfg : Config := { passwordlessEnabled := true, mailEnabled := false }

/-- A verified enabled account. -/
def c7xUser : Account :=
  { _id := 3, email := "p@x.com", verified := true, status := 1,
    password := some (.hash "whatever12") }

/-- The configuration of the C7 witness: passwordless and mail enabled. -/
def c7wCfg : Config := { passwordlessEnabled := true, mailEnabled := true }

/-- A verified enabled account. -/
def c7wUser : Account :=
  { _id := 4, email := "q@x.com", verified := true, status := 1,
    password := some (.hash "whatever34") }

/-- The configuration of the C9 witness: passwordless feature enabled. -/
def c9wCfg : Config := { passwordlessEnabled := true }

/-- A verified enabled account with 2FA enabled holding an unexpired
passwordless token. -/
def c9wUser : Account :=
  { _id := 8, email := "w9@x.com", password := some (.hash "pw9pw9pw9"),
    verified := true, status := 1,
    passwordlessToken := some "m9", passwordlessTokenExpires := some 1000,
    totp := some { enabled := true, secret := some "s9" } }

/-- The configuration of the C10 witness (all defaults). -/
def c10wCfg : Config := {}

/-- An account with no totp sub-document at all. -/
def c10wUser : Account :=
  { _id := 9, email := "w10@x.com", password := some (.hash "pw10pw10"),
    verified := true, status := 1 }

theorem find?_map_invariant (l : List Account) (f : Account → Account)
    (q : Account → Bool) (hq : ∀ a, q (f a) = q a) :
    (l.map f).find? q = (l.find? q).map f := by
  induction l with
  | nil => rfl
  | cons a t ih =>
    by_cases h : q a = true
    · simp [List.find?_cons_of_pos, h, hq]
    · simp only [Bool.not_eq_true] at h
      simp [List.find?_cons_of_neg, h, hq, ih]

theorem isTruthy_totpCode (s : String) : isTruthy (some (totpCode s)) = true := by
  simp only [isTruthy, totpCode, bne_iff_ne, ne_eq]
  intro h
  have := congrArg String.length h
  simp [String.length_append] at this
  exact absurd this.1 (by decide)

theorem credOk_mem_updateById {db : DB} {i : Nat} {patch : Account → Account}
    (h : ∀ a ∈ db, credOk a = true)
    (hp : ∀ a, credOk a = true → credOk (patch a) = true) :
    ∀ a ∈ updateById db i patch, credOk a = true := by
  intro a ha
  obtain ⟨b, hb, rfl⟩ := List.mem_map.mp ha
  by_cases hid : (b._id == i) = true
  · rw [if_pos hid]
    exact hp b (h b hb)
  · rw [if_neg hid]
    exact h b hb

theorem credOk_registerEntity (cfg : Config) (db : DB) (p : RegisterParams)
    (now pwNonce : Nat) (verifNonce : String) :
    credOk (registerEntity cfg db p now pwNonce verifNonce) = true := by
  cases hp : isTruthy p.password <;>
    simp [credOk, registerEntity, hp, bcryptHash]

theorem map_fst_ok {α : Type} {x : Except Err (DB × α)} {db' : DB}
    (h : x.map (fun r => r.1) = .ok db') :
    ∃ y, x = .ok y ∧ db' = y.1 := by
  cases x with
  | error e => simp [Except.map] at h
  | ok y =>
    refine ⟨y, rfl, ?_⟩
    simpa [Except.map] using h.symm

theorem registerHandler_credOk {cfg : Config} {db : DB} {p : RegisterParams}
    {now pwNonce : Nat} {verifNonce : String} {db1 : DB} {pub : PublicUser}
    (h : ∀ a ∈ db, credOk a = true)
    (hok : registerHandler cfg db p now pwNonce verifNonce = .ok (db1, pub)) :
    ∀ a ∈ db1, credOk a = true := by
  unfold registerHandler at hok
  split_ifs at hok <;> try exact Except.noConfusion hok
  simp only [Except.ok.injEq, Prod.mk.injEq] at hok
  obtain ⟨hdb, -⟩ := hok
  subst hdb
  intro a ha
  rcases List.mem_append.mp ha with h' | h'
  · exact h a h'
  · rw [List.mem_singleton.mp h']
    exact credOk_registerEntity cfg db p now pwNonce verifNonce

theorem verifyHandler_credOk {cfg : Config} {db : DB} {tok : String} {now : Nat}
    {db1 : DB} {t : SessionToken}
    (h : ∀ a ∈ db, credOk a = true)
    (hok : verifyHandler cfg db tok now = .ok (db1, t)) :
    ∀ a ∈ db1, credOk a = true := by
  unfold verifyHandler at hok
  split at hok
  · exact Except.noConfusion hok
  · simp only [Except.ok.injEq, Prod.mk.injEq] at hok
    obtain ⟨hdb, -⟩ := hok
    subst hdb
    exact credOk_mem_updateById h (fun a ha => ha)

theorem passwordlessHandler_credOk {cfg : Config} {db : DB} {tok : String}
    {now : Nat} {db1 : DB} {t : SessionToken}
    (h : ∀ a ∈ db, credOk a = true)
    (hok : passwordlessHandler cfg db tok now = .ok (db1, t)) :
    ∀ a ∈ db1, credOk a = true := by
  unfold passwordlessHandler at hok
  split_ifs at hok <;> try exact Except.noConfusion hok
  split at hok
  · exact Except.noConfusion hok
  · split_ifs at hok <;> try exact Except.noConfusion hok
    all_goals simp only [Except.ok.injEq, Prod.mk.injEq] at hok
    all_goals obtain ⟨hdb, -⟩ := hok
    all_goals subst hdb
    · exact credOk_mem_updateById h (fun a ha => ha)
    · exact h

theorem resetpasswordHandler_credOk {cfg : Config} {db : DB} {tok pass : String}
    {now : Nat} {db1 : DB} {t : SessionToken}
    (h : ∀ a ∈ db, credOk a = true)
    (hok : resetpasswordHandler cfg db tok pass now = .ok (db1, t)) :
    ∀ a ∈ db1, credOk a = true := by
  unfold resetpasswordHandler at hok
  split at hok
  · exact Except.noConfusion hok
  · split_ifs at hok <;> try exact Except.noConfusion hok
    simp only [Except.ok.injEq, Prod.mk.injEq] at hok
    obtain ⟨hdb, -⟩ := hok
    subst hdb
    exact credOk_mem_updateById h (fun a _ => rfl)

theorem forgotpasswordHandler_credOk {cfg : Config} {db : DB} {email : String}
    {now : Nat} {fresh : String} {db1 : DB}
    (h : ∀ a ∈ db, credOk a = true)
    (hok : forgotpasswordHandler cfg db email now fresh = .ok db1) :
    ∀ a ∈ db1, credOk a = true := by
  unfold forgotpasswordHandler at hok
  split at hok
  · exact Except.noConfusion hok
  · split_ifs at hok <;> try exact Except.noConfusion hok
    simp only [Except.ok.injEq] at hok
    subst hok
    exact credOk_mem_updateById h (fun a ha => ha)

theorem loginHandler_credOk {cfg : Config} {db : DB} {email : String}
    {password totpTok : Option String} {now : Nat} {fresh : String}
    {db1 : DB} {out : LoginOutcome}
    (h : ∀ a ∈ db, credOk a = true)
    (hok : loginHandler cfg db email password totpTok now fresh = .ok (db1, out)) :
    ∀ a ∈ db1, credOk a = true := by
  unfold loginHandler at hok
  split at hok
  · exact Except.noConfusion hok
  · split_ifs at hok <;> try exact Except.noConfusion hok
    all_goals
      simp only [Except.ok.injEq, Prod.mk.injEq] at hok
    all_goals obtain ⟨hdb, -⟩ := hok
    all_goals subst hdb
    · exact h
    · exact h
    · exact credOk_mem_updateById h (fun a ha => ha)

theorem enableHandler_credOk {db : DB} {id : Nat} {db1 : DB} {st : Nat}
    (h : ∀ a ∈ db, credOk a = true)
    (hok : enableHandler db id = .ok (db1, st)) :
    ∀ a ∈ db1, credOk a = true := by
  unfold enableHandler at hok
  split at hok
  · exact Except.noConfusion hok
  · split_ifs at hok <;> try exact Except.noConfusion hok
    simp only [Except.ok.injEq, Prod.mk.injEq] at hok
    obtain ⟨hdb, -⟩ := hok
    subst hdb
    exact credOk_mem_updateById h (fun a ha => ha)

theorem disableHandler_credOk {db : DB} {id : Nat} {db1 : DB} {st : Nat}
    (h : ∀ a ∈ db, credOk a = true)
    (hok : disableHandler db id = .ok (db1, st)) :
    ∀ a ∈ db1, credOk a = true := by
  unfold disableHandler at hok
  split at hok
  · exact Except.noConfusion hok
  · split_ifs at hok <;> try exact Except.noConfusion hok
    simp only [Except.ok.injEq, Prod.mk.injEq] at hok
    obtain ⟨hdb, -⟩ := hok
    subst hdb
    exact credOk_mem_updateById h (fun a ha => ha)

theorem enable2FaHandler_credOk {cfg : Config} {db : DB} {userID : Nat}
    {tok : Option String} {freshSecret userEmail : String}
    {db1 : DB} {res : Enable2FaResult}
    (h : ∀ a ∈ db, credOk a = true)
    (hok : enable2FaHandler cfg db userID tok freshSecret userEmail = .ok (db1, res)) :
    ∀ a ∈ db1, credOk a = true := by
  unfold enable2FaHandler at hok
  split at hok
  · exact Except.noConfusion hok
  · split_ifs at hok
    · simp only [Except.ok.injEq, Prod.mk.injEq] at hok
      obtain ⟨hdb, -⟩ := hok
      subst hdb
      exact credOk_mem_updateById h (fun a ha => ha)
    · split at hok
      · exact Except.noConfusion hok
      · split_ifs at hok <;> try exact Except.noConfusion hok
        simp only [Except.ok.injEq, Prod.mk.injEq] at hok
        obtain ⟨hdb, -⟩ := hok
        subst hdb
        exact credOk_mem_updateById h (fun a ha => ha)

theorem disable2FaHandler_credOk {db : DB} {userID : Nat} {tok : Option String}
    {db1 : DB}
    (h : ∀ a ∈ db, credOk a = true)
    (hok : disable2FaHandler db userID tok = .ok db1) :
    ∀ a ∈ db1, credOk a = true := by
  unfold disable2FaHandler at hok
  split at hok
  · exact Except.noConfusion hok
  · split_ifs at hok <;> try exact Except.noConfusion hok
    simp only [Except.ok.injEq] at hok
    subst hok
    exact credOk_mem_updateById h (fun a ha => ha)

theorem socialRegisterBranch_credOk {cfg : Config} {db : DB} {provider : String}
    {profile : SocialProfile} {now saltNonce pwNonce : Nat} {verifNonce : String}
    {db1 : DB} {pub : PublicUser}
    (h : ∀ a ∈ db, credOk a = true)
    (hok : socialRegisterBranch cfg db provider profile now saltNonce pwNonce
      verifNonce = .ok (db1, pub)) :
    ∀ a ∈ db1, credOk a = true := by
  unfold socialRegisterBranch at hok
  split_ifs at hok <;> try exact Except.noConfusion hok
  all_goals
    split at hok
    · exact Except.noConfusion hok
    · rename_i dbp hreg
      simp only [Except.ok.injEq, Prod.mk.injEq] at hok
      obtain ⟨hdb, -⟩ := hok
      subst hdb
      exact credOk_mem_updateById
        (registerHandler_credOk h hreg) (fun a ha => ha)

/-- C8: a session token issued by generateJWT binds the account id and is
accepted by verifyJWT at any time before its TTL elapses, yielding the
original account id; once past its TTL it is rejected with INVALID_TOKEN. -/
theorem c8_jwt_roundtrip (id now ttl now2 : Nat) :
    (now2 < now + ttl → verifyJWT (generateJWT id now ttl) now2 = .ok id) ∧
    (now + ttl ≤ now2 → verifyJWT (generateJWT id now ttl) now2 = .error .invalidToken) := by
  constructor
  · intro h
    dsimp only [verifyJWT, generateJWT]
    rw [if_neg (by omega)]
  · intro h
    dsimp only [verifyJWT, generateJWT]
    rw [if_pos (by omega)]

/-- Witness for c8_jwt_roundtrip at a concrete id, issue time and TTL. -/
theorem c8_jwt_roundtrip_witness :
    verifyJWT (generateJWT 42 100 60) 130 = .ok 42 ∧
    verifyJWT (generateJWT 42 100 60) 160 = .error .invalidToken :=
  ⟨(c8_jwt_roundtrip 42 100 60 130).1 (by decide),
   (c8_jwt_roundtrip 42 100 60 160).2 (by decide)⟩

/-- C5: on a verified, enabled, passwordless=false account without 2FA,
login with the correct password returns a session token that verifies to
the account id, and login with a wrong password fails with WRONG_PASSWORD
and issues no token (the error outcome carries none). -/
theorem c5_login_password (cfg : Config) (db : DB) (email : String) (user : Account)
    (pass wrong : String) (now : Nat) (fresh : String)
    (hfind : findOne db (loginQuery cfg email) = some user)
    (hver : user.verified = true)
    (hstat : user.status = 1)
    (hpl : user.passwordless = false)
    (hpw : user.password = some (.hash pass))
    (hp : pass ≠ "")
    (htotp : totpActive user = false)
    (httl : 0 < cfg.jwtExpiresIn)
    (hw : wrong ≠ pass) (hwne : wrong ≠ "") :
    loginHandler cfg db email (some pass) none now fresh =
      .ok (db, .session (generateJWT user._id now cfg.jwtExpiresIn)) ∧
    verifyJWT (generateJWT user._id now cfg.jwtExpiresIn) now = .ok user._id ∧
    loginHandler cfg db email (some wrong) none now fresh = .error .wrongPassword := by
  refine ⟨?_, ?_, ?_⟩
  · unfold loginHandler
    rw [hfind]
    simp [hver, hstat, hpl, isTruthy, hp, bcryptCompare, hpw, htotp, getToken]
  · dsimp only [verifyJWT, generateJWT]
    rw [if_neg (by omega)]
  · unfold loginHandler
    rw [hfind]
    simp [hver, hstat, hpl, isTruthy, hwne, bcryptCompare, hpw, hw]

/-- C7 (amended): for every verified, enabled account, when login is called
without a password, the passwordless feature is enabled AND the mail
feature is enabled, the operation stores a magic-link token on the account
and returns the pending-passwordless indicator as a successful outcome
rather than a session token. -/
theorem c7_login_passwordless_pending (cfg : Config) (db : DB) (email : String)
    (user : Account) (now : Nat) (fresh : String)
    (hfind : findOne db (loginQuery cfg email) = some user)
    (hver : user.verified = true) (hstat : user.status = 1)
    (hcfg : cfg.passwordlessEnabled = true) (hmail : cfg.mailEnabled = true) :
    loginHandler cfg db email none none now fresh =
      .ok (sendMagicLink cfg db user now fresh, .pendingPasswordless user.email) ∧
    sendMagicLink cfg db user now fresh =
      updateById db user._id (magicPatch fresh (now + cfg.passwordlessTokenTTL)) := by
  constructor
  · unfold loginHandler
    rw [hfind]
    simp [hver, hstat, isTruthy, hcfg, hmail]
  · rfl

/-- C9: an account with totp.enabled = true holding a valid unexpired
passwordless token is issued a session token by the passwordless action,
which takes no 2FA code parameter and performs no TOTP check. -/
theorem c9_passwordless_ignores_totp (cfg : Config) (db : DB) (tok : String)
    (now : Nat) (user : Account)
    (hcfg : cfg.passwordlessEnabled = true)
    (hfind : findOne db (fun u => u.passwordlessToken == some tok) = some user)
    (hstat : user.status = 1)
    (hexp : expiresBefore user.passwordlessTokenExpires now = false)
    (h2fa : totpActive user = true) :
    passwordlessHandler cfg db tok now =
      .ok ((if !user.verified then updateById db user._id verifiedPatch else db),
           generateJWT user._id now cfg.jwtExpiresIn) := by
  unfold passwordlessHandler
  rw [hcfg, hfind]
  simp [hstat, hexp, getToken]

/-- C10: with a code supplied, enable2Fa reads user.totp.secret without
guarding that the totp sub-document exists: the handler hits the unguarded
access (a JavaScript TypeError) exactly when a code is supplied and the
account has no totp record; with a stored totp record it is total. -/
theorem c10_enable2Fa_totp_unguarded (cfg : Config) (db : DB) (userID : Nat)
    (tok : Option String) (freshSecret userEmail : String) (user : Account)
    (hfind : findById db userID = some user) :
    enable2FaHandler cfg db userID tok freshSecret userEmail = .error .typeError
      ↔ isTruthy tok = true ∧ user.totp = none := by
  unfold enable2FaHandler
  rw [hfind]
  by_cases ht : isTruthy tok = true
  · cases htot : user.totp with
    | none => simp [ht, totpActive, htot]
    | some t =>
      simp only [ht, Bool.not_true, Bool.false_and, if_false]
      by_cases hv : verify2FA t.secret tok = true <;> simp [hv, htot]
  · simp only [Bool.not_eq_true] at ht
    by_cases ha : totpActive user = true
    · cases htot : user.totp with
      | none => rw [totpActive, htot] at ha; simp at ha
      | some t =>
        simp only [ht, ha, Bool.not_true, Bool.not_false, Bool.true_and, if_false]
        by_cases hv : verify2FA t.secret tok = true <;> simp [hv, ht, htot]
    · simp only [Bool.not_eq_true] at ha
      simp [ht, ha]

/-- C6: with verification and passwordless disabled, register with a fresh
email and a password creates an account with verified = true and
passwordless = false, returns the sanitized account carrying a session
token, and the sanitized view is independent of the stored password (no
password hash is exposed). -/
theorem c6_register_basic (cfg : Config) (db : DB) (p : RegisterParams)
    (now pwNonce : Nat) (verifNonce : String)
    (hsign : cfg.signupEnabled = true)
    (huser : cfg.usernameEnabled = false)
    (hverif : cfg.verificationEnabled = false)
    (hplcfg : cfg.passwordlessEnabled = false)
    (hfresh : findOne db (fun u => u.email == p.email) = none)
    (hpw : isTruthy p.password = true) :
    registerHandler cfg db p now pwNonce verifNonce =
      .ok (db ++ [registerEntity cfg db p now pwNonce verifNonce],
           transformDocuments (registerEntity cfg db p now pwNonce verifNonce)
             (some (getToken (registerEntity cfg db p now pwNonce verifNonce) now cfg))) ∧
    (registerEntity cfg db p now pwNonce verifNonce).verified = true ∧
    (registerEntity cfg db p now pwNonce verifNonce).passwordless = false ∧
    (transformDocuments (registerEntity cfg db p now pwNonce verifNonce)
        (some (getToken (registerEntity cfg db p now pwNonce verifNonce) now cfg))).token =
      some (getToken (registerEntity cfg db p now pwNonce verifNonce) now cfg) ∧
    (∀ a pwv t, transformDocuments { a with password := pwv } t = transformDocuments a t) := by
  refine ⟨?_, ?_, ?_, rfl, ?_⟩
  · unfold registerHandler
    rw [hsign, huser, hfresh]
    simp [hpw, registerEntity, hverif]
  · simp [registerEntity, hverif]
  · simp [registerEntity, hpw]
  · intro a pwv t
    rfl

/-- C3 (amended): for every reset token found on an enabled account and
unexpired, resetpassword applies a single update setting the new hash,
passwordless = false, verified = true and clearing the token and expiry,
and returns a session token; a second attempt with the same token fails
with INVALID_TOKEN; and, provided 2FA is not enabled on the account, the
new password subsequently authenticates via login. -/
theorem c3_resetPassword_single_use (cfg : Config) (db : DB) (tok pass : String)
    (now : Nat) (user : Account)
    (hfind : findOne db (fun u => u.resetToken == some tok) = some user)
    (hstat : user.status = 1)
    (hexp : expiresBefore user.resetTokenExpires now = false)
    (huniq : ∀ a ∈ db, a.resetToken = some tok → a._id = user._id)
    (hpass : pass ≠ "")
    (hemail : findOne db (loginQuery cfg user.email) = some user)
    (htotp : totpActive user = false) :
    resetpasswordHandler cfg db tok pass now =
      .ok (updateById db user._id (resetPatch pass),
           generateJWT user._id now cfg.jwtExpiresIn) ∧
    ((resetPatch pass user).password = some (.hash pass) ∧
     (resetPatch pass user).passwordless = false ∧
     (resetPatch pass user).verified = true ∧
     (resetPatch pass user).resetToken = none ∧
     (resetPatch pass user).resetTokenExpires = none) ∧
    (∀ pass2 now2,
      resetpasswordHandler cfg (updateById db user._id (resetPatch pass)) tok pass2 now2 =
        .error .invalidToken) ∧
    (∀ now2 fresh,
      loginHandler cfg (updateById db user._id (resetPatch pass)) user.email
          (some pass) none now2 fresh =
        .ok (updateById db user._id (resetPatch pass),
             .session (generateJWT user._id now2 cfg.jwtExpiresIn))) := by
  refine ⟨?_, ⟨rfl, rfl, rfl, rfl, rfl⟩, ?_, ?_⟩
  · unfold resetpasswordHandler
    rw [hfind]
    simp [hstat, hexp, getToken]
  · intro pass2 now2
    unfold resetpasswordHandler
    have hnone : findOne (updateById db user._id (resetPatch pass))
        (fun u => u.resetToken == some tok) = none := by
      unfold findOne updateById
      rw [List.find?_eq_none]
      intro x hx
      obtain ⟨b, hb, rfl⟩ := List.mem_map.mp hx
      by_cases hid : (b._id == user._id) = true
      · rw [if_pos hid]
        simp [resetPatch]
      · rw [if_neg hid]
        simp only [beq_iff_eq]
        intro hcontr
        exact hid (by simp [huniq b hb hcontr])
    rw [hnone]
  · intro now2 fresh
    have hfind' : findOne (updateById db user._id (resetPatch pass))
        (loginQuery cfg user.email) = some (resetPatch pass user) := by
      unfold findOne updateById
      rw [find?_map_invariant _ _ _ ?_]
      · unfold findOne at hemail
        rw [hemail]
        simp
      · intro a
        by_cases h : (a._id == user._id) = true
        · rw [if_pos h]
          rfl
        · rw [if_neg h]
    unfold loginHandler
    rw [hfind']
    simp [resetPatch, hstat, isTruthy, hpass, bcryptCompare, bcryptHash,
          getToken]
    exact htotp

/-- C4: on an account without 2FA, enable2Fa without a code stores a
pending TOTP secret with totp.enabled = false and returns the secret and
otpauth URI; a second call with the correct code for that secret flips
totp.enabled to true; thereafter login (with the correct password) and no
totpCode fails with MISSING_2FA_CODE. -/
theorem c4_enable2Fa_flow (cfg : Config) (db : DB) (user : Account)
    (secret s2 pass : String)
    (hfind : findById db user._id = some user)
    (htotp : totpActive user = false)
    (hemail : findOne db (loginQuery cfg user.email) = some user)
    (hver : user.verified = true) (hstat : user.status = 1)
    (hpl : user.passwordless = false)
    (hpw : user.password = some (.hash pass)) (hp : pass ≠ "") :
    enable2FaHandler cfg db user._id none secret user.email =
      .ok (updateById db user._id (pendingTotpPatch secret),
           .enrollment secret (otpauthOf secret user.email cfg.siteName)) ∧
    totpActive (pendingTotpPatch secret user) = false ∧
    enable2FaHandler cfg (updateById db user._id (pendingTotpPatch secret)) user._id
        (some (totpCode secret)) s2 user.email =
      .ok (updateById (updateById db user._id (pendingTotpPatch secret)) user._id
             enableTotpPatch, .enabled) ∧
    totpActive (enableTotpPatch (pendingTotpPatch secret user)) = true ∧
    (∀ now2 fresh2,
      loginHandler cfg
        (updateById (updateById db user._id (pendingTotpPatch secret)) user._id
          enableTotpPatch)
        user.email (some pass) none now2 fresh2 = .error .missing2FaCode) := by
  have h1 : findById (updateById db user._id (pendingTotpPatch secret)) user._id
      = some (pendingTotpPatch secret user) := by
    unfold findById updateById
    rw [find?_map_invariant _ _ _ ?_]
    · unfold findById at hfind
      rw [hfind]
      simp
    · intro a
      by_cases h : (a._id == user._id) = true
      · rw [if_pos h]
        rfl
      · rw [if_neg h]
  refine ⟨?_, rfl, ?_, rfl, ?_⟩
  · unfold enable2FaHandler
    rw [hfind]
    simp [isTruthy, htotp]
  · unfold enable2FaHandler
    rw [h1]
    dsimp only
    have hv : verify2FA (some secret) (some (totpCode secret)) = true := by
      simp [verify2FA]
    simp only [isTruthy_totpCode, Bool.not_true, Bool.false_and, Bool.false_eq_true,
      if_false, pendingTotpPatch]
    rw [hv]
    rfl
  · intro now2 fresh2
    have hfind2 : findOne
        (updateById (updateById db user._id (pendingTotpPatch secret)) user._id
          enableTotpPatch)
        (loginQuery cfg user.email) =
        some (enableTotpPatch (pendingTotpPatch secret user)) := by
      unfold findOne updateById
      rw [find?_map_invariant _ _ _ ?_, find?_map_invariant _ _ _ ?_]
      · unfold findOne at hemail
        rw [hemail]
        simp [pendingTotpPatch, enableTotpPatch]
      · intro a
        by_cases h : (a._id == user._id) = true
        · rw [if_pos h]
          rfl
        · rw [if_neg h]
      · intro a
        by_cases h : (a._id == user._id) = true
        · rw [if_pos h]
          rfl
        · rw [if_neg h]
    unfold loginHandler
    rw [hfind2]
    simp [enableTotpPatch, pendingTotpPatch, totpSecret, hver, hstat, hpl,
          isTruthy, hp, bcryptCompare, hpw, totpActive]

/-- C2 (amended): every AccountLifecycle operation preserves the
credential-shape invariant credOk: a passwordless account's password field
holds an opaque placeholder token (never null and never a password hash)
and a non-passwordless account's password field holds a bcrypt hash. -/
theorem c2_credential_invariant (cfg : Config) (now : Nat) (db : DB)
    (op : LifecycleOp) (db' : DB)
    (h : ∀ a ∈ db, credOk a = true)
    (hop : applyOp cfg now db op = .ok db') :
    ∀ a ∈ db', credOk a = true := by
  cases op with
  | registerOp p n v =>
    dsimp only [applyOp] at hop
    obtain ⟨⟨db1, pub⟩, hx, rfl⟩ := map_fst_ok hop
    exact registerHandler_credOk h hx
  | verifyOp tok =>
    dsimp only [applyOp] at hop
    obtain ⟨⟨db1, t⟩, hx, rfl⟩ := map_fst_ok hop
    exact verifyHandler_credOk h hx
  | disableOp id =>
    dsimp only [applyOp] at hop
    obtain ⟨⟨db1, st⟩, hx, rfl⟩ := map_fst_ok hop
    exact disableHandler_credOk h hx
  | enableOp id =>
    dsimp only [applyOp] at hop
    obtain ⟨⟨db1, st⟩, hx, rfl⟩ := map_fst_ok hop
    exact enableHandler_credOk h hx
  | passwordlessOp tok =>
    dsimp only [applyOp] at hop
    obtain ⟨⟨db1, t⟩, hx, rfl⟩ := map_fst_ok hop
    exact passwordlessHandler_credOk h hx
  | forgotPasswordOp email fresh =>
    dsimp only [applyOp] at hop
    exact forgotpasswordHandler_credOk h hop
  | resetPasswordOp tok pass =>
    dsimp only [applyOp] at hop
    obtain ⟨⟨db1, t⟩, hx, rfl⟩ := map_fst_ok hop
    exact resetpasswordHandler_credOk h hx
  | loginOp email pw t fresh =>
    dsimp only [applyOp] at hop
    obtain ⟨⟨db1, out⟩, hx, rfl⟩ := map_fst_ok hop
    exact loginHandler_credOk h hx
  | socialRegisterOp prov prof sn pn v =>
    dsimp only [applyOp] at hop
    obtain ⟨⟨db1, pub⟩, hx, rfl⟩ := map_fst_ok hop
    exact socialRegisterBranch_credOk h hx
  | linkOp id prov sid =>
    dsimp only [applyOp] at hop
    simp only [Except.ok.injEq] at hop
    subst hop
    exact credOk_mem_updateById h (fun a ha => ha)
  | unlinkOp id prov =>
    dsimp only [applyOp] at hop
    simp only [Except.ok.injEq] at hop
    subst hop
    exact credOk_mem_updateById h (fun a ha => ha)
  | enable2FaOp uid tok s em =>
    dsimp only [applyOp] at hop
    obtain ⟨⟨db1, res⟩, hx, rfl⟩ := map_fst_ok hop
    exact enable2FaHandler_credOk h hx
  | disable2FaOp uid tok =>
    dsimp only [applyOp] at hop
    exact disable2FaHandler_credOk h hop

/-- C1: evaluation of actions.passwordless at a concrete store: the
consuming update does not clear the passwordless token (the store is
returned unchanged, with the token still present), so a second consumption
of the same token also succeeds, contradicting the single-use
requirement. -/
theorem c1_passwordless_token_not_cleared :
    passwordlessHandler c1Cfg [c1User] "magic" 500 =
      .ok ([c1User], generateJWT 1 500 c1Cfg.jwtExpiresIn) ∧
    c1User.passwordlessToken = some "magic" ∧
    (passwordlessHandler c1Cfg [c1User] "magic" 600).isOk = true :=
  ⟨rfl, rfl, rfl⟩

/-- C2 counterexample: registering with the passwordless feature enabled
and no password produces an account with passwordless = true whose
password field is nevertheless set (an opaque placeholder), so "exactly
one of passwordHash set / passwordless = true" fails on the stored
fields. -/
theorem c2_passwordless_account_has_credential :
    registerHandler c2xCfg [] c2xParams 0 7 "v" =
      .ok ([c2xEntity], transformDocuments c2xEntity
        (some (generateJWT 0 0 c2xCfg.jwtExpiresIn))) ∧
    c2xEntity.passwordless = true ∧
    c2xEntity.password = some (.token 7) ∧
    c2xEntity.password.isSome = true :=
  ⟨rfl, rfl, rfl, rfl⟩

/-- Witness for c2_credential_invariant: the register operation on the
empty store yields a store all of whose accounts satisfy credOk. -/
theorem c2_credential_invariant_witness :
    (∀ a ∈ ([] : DB), credOk a = true) ∧ (∀ a ∈ c2wDb, credOk a = true) :=
  ⟨by simp, c2_credential_invariant c2xCfg 0 [] c2wOp c2wDb (by simp) (by rfl)⟩

/-- C3 counterexample: on an account with 2FA enabled, after a successful
password reset, login with the new password (and no 2FA code) fails with
MISSING_2FA_CODE instead of authenticating. -/
theorem c3_totp_account_blocks_login_after_reset :
    resetpasswordHandler c3xCfg [c3xUser] "rt" "newpass123" 500 =
      .ok (c3xDb1, generateJWT 2 500 c3xCfg.jwtExpiresIn) ∧
    loginHandler c3xCfg c3xDb1 "r@x.com" (some "newpass123") none 600 "f" =
      .error .missing2FaCode :=
  ⟨rfl, rfl⟩

/-- Witness for c3_resetPassword_single_use at a concrete store. -/
theorem c3_resetPassword_single_use_witness :
    resetpasswordHandler c3wCfg [c3wUser] "rt3" "newpass456" 500 =
      .ok (updateById [c3wUser] c3wUser._id (resetPatch "newpass456"),
           generateJWT c3wUser._id 500 c3wCfg.jwtExpiresIn) :=
  (c3_resetPassword_single_use c3wCfg [c3wUser] "rt3" "newpass456" 500 c3wUser
    (by decide) (by decide) (by decide) (by decide) (by decide) (by decide)
    (by decide)).1

/-- Witness for c4_enable2Fa_flow at a concrete store. -/
theorem c4_enable2Fa_flow_witness :
    enable2FaHandler c4wCfg [c4wUser] c4wUser._id none "sec6" c4wUser.email =
      .ok (updateById [c4wUser] c4wUser._id (pendingTotpPatch "sec6"),
           .enrollment "sec6" (otpauthOf "sec6" c4wUser.email c4wCfg.siteName)) :=
  (c4_enable2Fa_flow c4wCfg [c4wUser] c4wUser "sec6" "s2x" "pass1234x"
    (by decide) (by decide) (by decide) (by decide) (by decide) (by decide)
    (by decide) (by decide)).1

/-- Witness for c5_login_password at a concrete store. -/
theorem c5_login_password_witness :
    loginHandler c5wCfg [c5wUser] "w5@x.com" (some "correct123") none 50 "f" =
      .ok ([c5wUser], .session (generateJWT c5wUser._id 50 c5wCfg.jwtExpiresIn)) ∧
    loginHandler c5wCfg [c5wUser] "w5@x.com" (some "wrongpass1") none 50 "f" =
      .error .wrongPassword :=
  ⟨(c5_login_password c5wCfg [c5wUser] "w5@x.com" c5wUser "correct123"
      "wrongpass1" 50 "f" (by decide) (by decide) (by decide) (by decide)
      (by decide) (by decide) (by decide) (by decide) (by decide) (by decide)).1,
   (c5_login_password c5wCfg [c5wUser] "w5@x.com" c5wUser "correct123"
      "wrongpass1" 50 "f" (by decide) (by decide) (by decide) (by decide)
      (by decide) (by decide) (by decide) (by decide) (by decide) (by decide)).2.2⟩

/-- Witness for c6_register_basic at a concrete configuration. -/
theorem c6_register_basic_witness :
    registerHandler c6wCfg [] c6wP 0 3 "v" =
      .ok ([] ++ [registerEntity c6wCfg [] c6wP 0 3 "v"],
           transformDocuments (registerEntity c6wCfg [] c6wP 0 3 "v")
             (some (getToken (registerEntity c6wCfg [] c6wP 0 3 "v") 0 c6wCfg))) :=
  (c6_register_basic c6wCfg [] c6wP 0 3 "v" (by decide) (by decide) (by decide)
    (by decide) (by decide) (by decide)).1

/-- C7 counterexample: with the passwordless feature enabled but the mail
transporter disabled, login without a password on a verified enabled
account fails with ERR_PASSWORDLESS_UNAVAILABLE instead of returning the
pending-passwordless success. -/
theorem c7_mail_disabled_blocks_passwordless_login :
    c7xCfg.passwordlessEnabled = true ∧ c7xUser.verified = true ∧
    c7xUser.status = 1 ∧
    loginHandler c7xCfg [c7xUser] "p@x.com" none none 100 "f" =
      .error .passwordlessUnavailable :=
  ⟨rfl, rfl, rfl, rfl⟩

/-- Witness for c7_login_passwordless_pending at a concrete store. -/
theorem c7_login_passwordless_pending_witness :
    loginHandler c7wCfg [c7wUser] "q@x.com" none none 100 "mt" =
      .ok (sendMagicLink c7wCfg [c7wUser] c7wUser 100 "mt",
           .pendingPasswordless c7wUser.email) :=
  (c7_login_passwordless_pending c7wCfg [c7wUser] "q@x.com" c7wUser 100 "mt"
    (by decide) (by decide) (by decide) (by decide) (by decide)).1

/-- Witness for c9_passwordless_ignores_totp at a concrete store. -/
theorem c9_passwordless_ignores_totp_witness :
    passwordlessHandler c9wCfg [c9wUser] "m9" 500 =
      .ok ((if !c9wUser.verified then updateById [c9wUser] c9wUser._id verifiedPatch
            else [c9wUser]),
           generateJWT c9wUser._id 500 c9wCfg.jwtExpiresIn) :=
  c9_passwordless_ignores_totp c9wCfg [c9wUser] "m9" 500 c9wUser
    (by decide) (by decide) (by decide) (by decide) (by decide)

/-- Witness for c10_enable2Fa_totp_unguarded at a concrete store: the
account has no totp sub-document and a code is supplied, so the handler
hits the unguarded user.totp.secret access. -/
theorem c10_enable2Fa_totp_unguarded_witness :
    enable2FaHandler c10wCfg [c10wUser] 9 (some "123456") "fs" "w10@x.com" =
        .error .typeError
      ↔ isTruthy (some "123456") = true ∧ c10wUser.totp = none :=
  c10_enable2Fa_totp_unguarded c10wCfg [c10wUser] 9 (some "123456") "fs"
    "w10@x.com" c10wUser (by decide)
